import Mathlib

/-!
Verification of the provider-fallback core of the AI terminal helper
(`ai_helper.py`): the orchestrator `_generate_with_fallback`, the progress
indicator `_start_spinner`, and the `last_status` bookkeeping on `TerminalAI`.

The embedding makes external effects explicit:
* the outcome of each OpenAI (primary) attempt and of the single Gemini
  (secondary) call are inputs (`Except detail text`);
* side effects (spinner start/stop, `time.sleep`, network calls) are recorded
  in an event trace;
* wall-clock time for the secondary phase is modelled in milliseconds,
  reflecting `concurrent.futures` semantics: `fut.result(timeout=7.0)`
  observes the result at `min(duration, 7000)` ms, and leaving the
  `with ThreadPoolExecutor(...)` block calls `shutdown(wait=True)`, which
  blocks until the submitted call finishes, so the caller is released only
  after the full `duration` even when the 7 s timeout already fired.
-/

/-- The `self.last_status` dictionary of `TerminalAI`: provider and reason
strings, an optional error detail (`"error"` key) and an optional
`"duration_ms"` value. `none` fields model absent dictionary keys. -/
structure Status where
  provider : String
  reason : String
  error : Option String := none
  duration_ms : Option Nat := none
deriving Repr, DecidableEq

/-- Observable effects of one `_generate_with_fallback` call, in program
order. `sleep` carries the duration in milliseconds. -/
inductive Event where
  | startSpinner : Event
  | stopSpinner : Event
  | sleep : Nat → Event
  | primaryCall : Event
  | secondaryCall : Event
deriving Repr, DecidableEq

/-- What the call hands back to its caller: a returned text, or the message
of a raised `RuntimeError`. -/
inductive GenResult where
  | ok : String → GenResult
  | raised : String → GenResult
deriving Repr, DecidableEq

/-- Behaviour of the single Gemini `generate_content` call: it completes
after `duration` milliseconds with `result` (text, or exception detail). -/
structure SecondaryEnv where
  duration : Nat
  result : Except String String
deriving Repr

/-- Everything one `_generate_with_fallback` call produces: its event trace,
its returned/raised result, the final `self.last_status`, and — when the
secondary phase ran — the wall-clock milliseconds the caller spent inside
the `with ThreadPoolExecutor` block before regaining control. -/
structure RunOutput where
  trace : List Event
  result : GenResult
  lastStatus : Option Status
  secondaryElapsed : Option Nat
deriving Repr, DecidableEq

/-- The hard wall-clock timeout of the secondary call, `fut.result(timeout=7.0)`,
in milliseconds. -/
def GEMINI_TIMEOUT_MS : Nat := 7000

/-- Total milliseconds slept in a trace (the `time.sleep(delay)` calls of the
primary retry loop); primary network calls are modelled as instantaneous, so
this is the primary phase's elapsed time. -/
def sleepTotal (tr : List Event) : Nat :=
  (tr.filterMap fun e => match e with | Event.sleep n => some n | _ => none).sum

/-- The primary (OpenAI) retry loop, lines 396-415 of `ai_helper.py`:
`for _ in range(3)` with `delay = 0.5` doubling after every failure. On each
failed attempt the code runs `last_exc = exc; time.sleep(delay); delay *= 2`
unconditionally — also on the last attempt. Arguments: the per-attempt
environment, remaining attempts, current attempt index, current delay in ms,
last exception so far, trace so far. Returns the successful text and trace,
or the last exception and trace after exhaustion. -/
def primaryLoop (env : Nat → Except String String) :
    Nat → Nat → Nat → Option String → List Event →
    (String × List Event) ⊕ (Option String × List Event)
  | 0, _, _, lastExc, tr => Sum.inr (lastExc, tr)
  | n + 1, idx, delay, _, tr =>
    match env idx with
    | Except.ok text => Sum.inl (text, tr ++ [Event.primaryCall])
    | Except.error e =>
        primaryLoop env n (idx + 1) (delay * 2) (some e)
          (tr ++ [Event.primaryCall, Event.sleep delay])

/-- The Gemini fallback phase, lines 420-442 of `ai_helper.py`. `ls` is the
`self.last_status` value on entry. When the client is absent the code raises
`RuntimeError("No AI client is available (both OpenAI and Gemini failed).")`
— one fixed message on every path. Otherwise it submits one call to a
one-worker pool and waits `fut.result(timeout=7.0)`; on success within the
timeout it updates `last_status` (wholly if falsy, else only `duration_ms`),
on `TimeoutError` or any other exception it raises. The caller-observed
elapsed time is the call's full duration: the `with` block's implicit
`shutdown(wait=True)` waits for the in-flight call even after a timeout. -/
def secondaryPhase (geminiConfigured : Bool) (ls : Option Status)
    (env : SecondaryEnv) : RunOutput :=
  if geminiConfigured then
    let tr := [Event.startSpinner, Event.secondaryCall]
    if env.duration ≤ GEMINI_TIMEOUT_MS then
      match env.result with
      | Except.ok text =>
        let ls2 := match ls with
          | none => some { provider := "gemini", reason := "ok",
                           duration_ms := some env.duration }
          | some s => some { s with duration_ms := some env.duration }
        { trace := tr ++ [Event.stopSpinner], result := GenResult.ok text,
          lastStatus := ls2, secondaryElapsed := some env.duration }
      | Except.error e =>
        { trace := tr ++ [Event.stopSpinner],
          result := GenResult.raised ("Gemini fallback failed: " ++ e),
          lastStatus := ls, secondaryElapsed := some env.duration }
    else
      { trace := tr ++ [Event.stopSpinner],
        result := GenResult.raised "Gemini fallback timed out after 7 seconds",
        lastStatus := ls, secondaryElapsed := some env.duration }
  else
    { trace := [],
      result := GenResult.raised
        "No AI client is available (both OpenAI and Gemini failed).",
      lastStatus := ls, secondaryElapsed := none }

/-- `TerminalAI._generate_with_fallback` (lines 389-442). Inputs: whether
`self.openai_client` and `self.client` are configured (non-`None`), the
`self.last_status` on entry, the outcome of each primary attempt, and the
secondary call's behaviour. When the primary client is configured a spinner
is started and the retry loop runs; on success `last_status` is overwritten
with provider `"openai"`, reason `"ok"` and the elapsed `duration_ms`; on
exhaustion the spinner is stopped and `last_status` is overwritten with
provider `"gemini"`, reason `"openai_failed"` and the last error, before
falling through to the secondary phase. -/
def generate_with_fallback (openaiConfigured geminiConfigured : Bool)
    (ls : Option Status) (primaryEnv : Nat → Except String String)
    (secEnv : SecondaryEnv) : RunOutput :=
  if openaiConfigured then
    match primaryLoop primaryEnv 3 0 500 none [] with
    | Sum.inl (text, tr) =>
      { trace := Event.startSpinner :: tr ++ [Event.stopSpinner],
        result := GenResult.ok text,
        lastStatus := some { provider := "openai", reason := "ok",
                             duration_ms := some (sleepTotal tr) },
        secondaryElapsed := none }
    | Sum.inr (lastExc, tr) =>
      let trHead := Event.startSpinner :: tr ++ [Event.stopSpinner]
      let ls1 : Option Status :=
        some { provider := "gemini", reason := "openai_failed", error := lastExc }
      let out := secondaryPhase geminiConfigured ls1 secEnv
      { out with trace := trHead ++ out.trace }
  else
    secondaryPhase geminiConfigured ls secEnv

/-- The ellipsis table `dots = [".", "..", "..."]` of `_spin`. -/
def spinnerDots : List String := [".", "..", "..."]

/-- The phase label drawn at tick `i`: `phases[(i // 3) % len(phases)]`. -/
def spinnerPhase (phases : List String) (i : Nat) : String :=
  phases.getD ((i / 3) % phases.length) ""

/-- The status line `msg = f"{phase} {dots[i % 3]}"` drawn at tick `i` of the
spinner loop (the actual write prepends a carriage return and appends ten
blanks to repaint the line). -/
def spinnerLine (phases : List String) (i : Nat) : String :=
  spinnerPhase phases i ++ " " ++ spinnerDots.getD (i % 3) ""

/-- The phases tuple passed by `_generate_with_fallback`:
`("Thinking", "Analysing")`. -/
def thinkingPhases : List String := ["Thinking", "Analysing"]

/-- Running check that spinner handles are well nested in a trace: at most one
spinner is active at a time, a stop always matches an active start, and every
started spinner has been stopped by the end. Second argument is the number of
currently active handles. -/
def spinnerBalanced : List Event → Nat → Bool
  | [], n => n == 0
  | Event.startSpinner :: tr, n => n == 0 && spinnerBalanced tr 1
  | Event.stopSpinner :: tr, n => n == 1 && spinnerBalanced tr 0
  | _ :: tr, n => spinnerBalanced tr n

/-- Sleep durations appearing in a trace, in order. -/
def sleeps (tr : List Event) : List Nat :=
  tr.filterMap fun e => match e with | Event.sleep n => some n | _ => none

/-- Number of primary network calls in a trace. -/
def primaryCalls (tr : List Event) : Nat :=
  tr.countP fun e => e == Event.primaryCall

/-- Number of secondary network calls in a trace. -/
def secondaryCalls (tr : List Event) : Nat :=
  tr.countP fun e => e == Event.secondaryCall

/-- The `last_status` invariant tracked across the orchestrator: whenever the
reason records a primary failure, the provider recorded is the secondary one. -/
def StatusInv (ls : Option Status) : Prop :=
  ∀ s, ls = some s → s.reason = "openai_failed" → s.provider = "gemini"

example :
    (generate_with_fallback true true none (fun _ => Except.ok "hi")
      ⟨100, Except.ok "g"⟩).result = GenResult.ok "hi" := by decide

example :
    (generate_with_fallback true true none (fun _ => Except.error "boom")
      ⟨100, Except.ok "g"⟩).trace =
    [Event.startSpinner, Event.primaryCall, Event.sleep 500,
     Event.primaryCall, Event.sleep 1000, Event.primaryCall, Event.sleep 2000,
     Event.stopSpinner, Event.startSpinner, Event.secondaryCall,
     Event.stopSpinner] := by decide

lemma secondaryPhase_statusInv (gc : Bool) (ls : Option Status)
    (env : SecondaryEnv) (h : StatusInv ls) :
    StatusInv (secondaryPhase gc ls env).lastStatus := by
  unfold secondaryPhase
  cases gc with
  | false => simpa using h
  | true =>
    by_cases hd : env.duration ≤ GEMINI_TIMEOUT_MS
    · cases hr : env.result with
      | ok t =>
        cases ls with
        | none =>
          intro s hs hreason
          simp [hd, hr] at hs
          subst hs
          simp at hreason
        | some s0 =>
          intro s hs hreason
          simp [hd, hr] at hs
          subst hs
          exact h s0 rfl hreason
      | error e => simpa [hd, hr] using h
    · simpa [hd] using h

lemma secondaryPhase_balanced (gc : Bool) (ls : Option Status)
    (env : SecondaryEnv) :
    spinnerBalanced (secondaryPhase gc ls env).trace 0 = true := by
  unfold secondaryPhase
  cases gc with
  | false => rfl
  | true =>
    by_cases hd : env.duration ≤ GEMINI_TIMEOUT_MS
    · cases hr : env.result with
      | ok t => simp [hd, hr, spinnerBalanced]
      | error e => simp [hd, hr, spinnerBalanced]
    · simp [hd, spinnerBalanced]

lemma secondaryPhase_primaryCalls (gc : Bool) (ls : Option Status)
    (env : SecondaryEnv) :
    primaryCalls (secondaryPhase gc ls env).trace = 0 := by
  unfold secondaryPhase
  cases gc with
  | false => rfl
  | true =>
    by_cases hd : env.duration ≤ GEMINI_TIMEOUT_MS
    · cases hr : env.result with
      | ok t => simp [hd, hr, primaryCalls]
      | error e => simp [hd, hr, primaryCalls]
    · simp [hd, primaryCalls]

lemma spinnerBalanced_append (a : List Event) :
    ∀ (n : Nat) (b : List Event), spinnerBalanced a n = true →
      spinnerBalanced b 0 = true → spinnerBalanced (a ++ b) n = true := by
  induction a with
  | nil =>
    intro n b ha hb
    simp [spinnerBalanced] at ha
    simpa [ha] using hb
  | cons x tr ih =>
    intro n b ha hb
    cases x with
    | startSpinner =>
      simp [spinnerBalanced] at ha ⊢
      exact ⟨ha.1, ih 1 b ha.2 hb⟩
    | stopSpinner =>
      simp [spinnerBalanced] at ha ⊢
      exact ⟨ha.1, ih 0 b ha.2 hb⟩
    | sleep m =>
      simp [spinnerBalanced] at ha ⊢
      exact ih n b ha hb
    | primaryCall =>
      simp [spinnerBalanced] at ha ⊢
      exact ih n b ha hb
    | secondaryCall =>
      simp [spinnerBalanced] at ha ⊢
      exact ih n b ha hb

/-- Number of primary calls distributes over trace concatenation. -/
lemma primaryCalls_append (a b : List Event) :
    primaryCalls (a ++ b) = primaryCalls a + primaryCalls b :=
  List.countP_append _ _ _

/-- C1: the spec (§4.3) states that after a failed primary attempt the
backoff sleep happens only when that attempt is not the last of the 3, and
that no sleep occurs after the final failed attempt before falling through
to the secondary provider. The code instead runs `time.sleep(delay)` in the
`except` branch unconditionally: with all three attempts failing, the trace
contains a third sleep of 2000 ms after the final `primaryCall` and before
the fall-through to the secondary phase. -/
theorem C1_code_sleeps_after_last_attempt :
    sleeps (generate_with_fallback true true none
      (fun _ => Except.error "rate limited") ⟨1000, Except.ok "g"⟩).trace =
      [500, 1000, 2000] ∧
    (generate_with_fallback true true none
      (fun _ => Except.error "rate limited") ⟨1000, Except.ok "g"⟩).trace =
    [Event.startSpinner, Event.primaryCall, Event.sleep 500,
     Event.primaryCall, Event.sleep 1000, Event.primaryCall, Event.sleep 2000,
     Event.stopSpinner, Event.startSpinner, Event.secondaryCall,
     Event.stopSpinner] := by decide

/-- C2: the spec demands the caller is released within the 7 s secondary
timeout, the in-flight call left detached. In the code the timeout exception
is raised at 7 s, but leaving the `with ThreadPoolExecutor` block runs
`shutdown(wait=True)`, which waits for the in-flight call: with a secondary
call lasting 10 s, the caller regains control only after 10000 ms, past the
7000 ms bound. -/
theorem C2_caller_blocks_past_timeout :
    (generate_with_fallback false true none (fun _ => Except.error "unused")
      ⟨10000, Except.ok "late answer"⟩).result =
      GenResult.raised "Gemini fallback timed out after 7 seconds" ∧
    (generate_with_fallback false true none (fun _ => Except.error "unused")
      ⟨10000, Except.ok "late answer"⟩).secondaryElapsed = some 10000 ∧
    GEMINI_TIMEOUT_MS < 10000 := by decide

/-- C3 counterexample: with neither client configured the raised message is
the fixed string "No AI client is available (both OpenAI and Gemini
failed).", not the claimed "No AI client is available." variant for an
unconfigured primary. -/
theorem C3_counterexample :
    (generate_with_fallback false false none (fun _ => Except.error "unused")
      ⟨0, Except.ok "unused"⟩).result =
      GenResult.raised
        "No AI client is available (both OpenAI and Gemini failed)." ∧
    (generate_with_fallback false false none (fun _ => Except.error "unused")
      ⟨0, Except.ok "unused"⟩).result ≠
      GenResult.raised "No AI client is available." := by decide

/-- C3 amended: whenever the secondary client is absent and the primary
either is unconfigured or fails every attempt, the call raises with the one
fixed message "No AI client is available (both OpenAI and Gemini failed).",
independent of whether the primary client was configured. -/
theorem C3_message_uniform (oc : Bool) (ls : Option Status)
    (pe : Nat → Except String String) (env : SecondaryEnv)
    (h : ∀ i, i < 3 → ∃ e, pe i = Except.error e) :
    (generate_with_fallback oc false ls pe env).result =
      GenResult.raised
        "No AI client is available (both OpenAI and Gemini failed)." := by
  cases oc with
  | false => simp [generate_with_fallback, secondaryPhase]
  | true =>
    obtain ⟨e0, h0⟩ := h 0 (by norm_num)
    obtain ⟨e1, h1⟩ := h 1 (by norm_num)
    obtain ⟨e2, h2⟩ := h 2 (by norm_num)
    simp [generate_with_fallback, primaryLoop, h0, h1, h2, secondaryPhase]

/-- C3 witness: the amended statement at a concrete input (primary
configured, all attempts failing, secondary unconfigured). -/
theorem C3_message_uniform_witness :
    (generate_with_fallback true false none (fun _ => Except.error "boom")
      ⟨0, Except.ok "unused"⟩).result =
      GenResult.raised
        "No AI client is available (both OpenAI and Gemini failed)." :=
  C3_message_uniform true none (fun _ => Except.error "boom")
    ⟨0, Except.ok "unused"⟩ (fun _ _ => ⟨"boom", rfl⟩)

/-- C9: with neither client configured the call raises the no-provider
message with an empty event trace — no network call, no spinner, no sleep —
and no secondary-phase wait. -/
theorem C9_no_provider_immediate (ls : Option Status)
    (pe : Nat → Except String String) (env : SecondaryEnv) :
    (generate_with_fallback false false ls pe env).trace = [] ∧
    (generate_with_fallback false false ls pe env).result =
      GenResult.raised
        "No AI client is available (both OpenAI and Gemini failed)." ∧
    (generate_with_fallback false false ls pe env).secondaryElapsed = none :=
  ⟨rfl, rfl, rfl⟩

/-- C4: the secondary phase attempts the Gemini call exactly once; a call
exceeding the 7 s timeout raises the timeout message, any other failure
raises the wrapped failure message, and a success within the timeout (for
example at 6.9 s) returns the generated text. -/
theorem C4_secondary_semantics (ls : Option Status) (env : SecondaryEnv) :
    secondaryCalls (secondaryPhase true ls env).trace = 1 ∧
    (GEMINI_TIMEOUT_MS < env.duration →
      (secondaryPhase true ls env).result =
        GenResult.raised "Gemini fallback timed out after 7 seconds") ∧
    (∀ e, env.duration ≤ GEMINI_TIMEOUT_MS → env.result = Except.error e →
      (secondaryPhase true ls env).result =
        GenResult.raised ("Gemini fallback failed: " ++ e)) ∧
    (∀ t, env.duration ≤ GEMINI_TIMEOUT_MS → env.result = Except.ok t →
      (secondaryPhase true ls env).result = GenResult.ok t) := by
  obtain ⟨d, r⟩ := env
  by_cases hd : d ≤ GEMINI_TIMEOUT_MS
  · cases r with
    | ok t =>
      refine ⟨?_, ?_, ?_, ?_⟩
      · cases ls <;> simp [secondaryPhase, hd, secondaryCalls]
      · intro hlt; exact absurd hlt (not_lt.mpr hd)
      · intro e _ hre; simp at hre
      · intro t' _ hrt
        simp only [Except.ok.injEq] at hrt
        subst hrt
        cases ls <;> simp [secondaryPhase, hd]
    | error e =>
      refine ⟨?_, ?_, ?_, ?_⟩
      · simp [secondaryPhase, hd, secondaryCalls]
      · intro hlt; exact absurd hlt (not_lt.mpr hd)
      · intro e' _ hre
        simp only [Except.error.injEq] at hre
        subst hre
        simp [secondaryPhase, hd]
      · intro t _ hrt; simp at hrt
  · refine ⟨?_, ?_, ?_, ?_⟩
    · simp [secondaryPhase, hd, secondaryCalls]
    · intro _; simp [secondaryPhase, hd]
    · intro e hle _; exact absurd hle hd
    · intro t hle _; exact absurd hle hd

/-- C4 witness: a secondary success at 6.9 s (within the 7 s timeout)
returns the generated text. -/
theorem C4_secondary_semantics_witness :
    (secondaryPhase true none ⟨6900, Except.ok "hello"⟩).result =
      GenResult.ok "hello" :=
  (C4_secondary_semantics none ⟨6900, Except.ok "hello"⟩).2.2.2 "hello"
    (by decide) rfl

/-- C5: the outcome invariant — assuming the status invariant on entry,
every final `last_status` satisfies reason = "openai_failed" implies
provider = "gemini"; and whenever the primary loop succeeds, the call
returns that text with `last_status` provider "openai" and reason "ok". -/
theorem C5_outcome_invariant (oc gc : Bool) (ls : Option Status)
    (pe : Nat → Except String String) (env : SecondaryEnv)
    (hInv : StatusInv ls) :
    StatusInv (generate_with_fallback oc gc ls pe env).lastStatus ∧
    (∀ t tr, primaryLoop pe 3 0 500 none [] = Sum.inl (t, tr) →
      (generate_with_fallback true gc ls pe env).result = GenResult.ok t ∧
      (generate_with_fallback true gc ls pe env).lastStatus =
        some { provider := "openai", reason := "ok",
               duration_ms := some (sleepTotal tr) }) := by
  constructor
  · cases oc with
    | false =>
      simpa [generate_with_fallback] using secondaryPhase_statusInv gc ls env hInv
    | true =>
      rcases hpl : primaryLoop pe 3 0 500 none [] with ⟨t, tr⟩ | ⟨le, tr⟩
      · intro s hs hreason
        simp [generate_with_fallback, hpl] at hs
        subst hs
        simp at hreason
      · have h1 : StatusInv
            (some { provider := "gemini", reason := "openai_failed",
                    error := le }) := by
          intro s hs _
          injection hs with h
          subst h
          rfl
        have h2 := secondaryPhase_statusInv gc _ env h1
        simpa [generate_with_fallback, hpl] using h2
  · intro t tr hpl
    simp [generate_with_fallback, hpl]

/-- C5 witness: with a fresh status and a primary that succeeds at once, the
invariant holds of the final status and the result is the primary text. -/
theorem C5_outcome_invariant_witness :
    StatusInv (generate_with_fallback true true none (fun _ => Except.ok "hi")
      ⟨0, Except.ok "g"⟩).lastStatus ∧
    (generate_with_fallback true true none (fun _ => Except.ok "hi")
      ⟨0, Except.ok "g"⟩).result = GenResult.ok "hi" := by
  have h := C5_outcome_invariant true true none (fun _ => Except.ok "hi")
    ⟨0, Except.ok "g"⟩ (by intro s hs; cases hs)
  exact ⟨h.1, (h.2 "hi" [Event.primaryCall] (by decide)).1⟩

/-- The secondary phase never performs a primary network call. -/
lemma secondaryPhase_trace_no_primaryCall (gc : Bool) (ls : Option Status)
    (env : SecondaryEnv) :
    ∀ e ∈ (secondaryPhase gc ls env).trace, ¬e = Event.primaryCall := by
  unfold secondaryPhase
  cases gc with
  | false => simp
  | true =>
    by_cases hd : env.duration ≤ GEMINI_TIMEOUT_MS
    · cases hr : env.result with
      | ok t => cases ls <;> simp [hd, hr]
      | error e => simp [hd, hr]
    · simp [hd]

/-- C6: with the primary client configured — a first-attempt success sleeps
never and yields provider "openai", reason "ok"; failures on attempts 1 and 2
followed by a success on attempt 3 sleep exactly twice, 500 ms then 1000 ms,
and yield provider "openai", reason "ok"; and at most 3 primary calls ever
occur. -/
theorem C6_primary_attempts (gc : Bool) (ls : Option Status)
    (pe : Nat → Except String String) (env : SecondaryEnv) :
    (∀ t, pe 0 = Except.ok t →
      sleeps (generate_with_fallback true gc ls pe env).trace = [] ∧
      (generate_with_fallback true gc ls pe env).result = GenResult.ok t ∧
      (generate_with_fallback true gc ls pe env).lastStatus =
        some { provider := "openai", reason := "ok",
               duration_ms := some 0 }) ∧
    (∀ e0 e1 t, pe 0 = Except.error e0 → pe 1 = Except.error e1 →
        pe 2 = Except.ok t →
      sleeps (generate_with_fallback true gc ls pe env).trace = [500, 1000] ∧
      (generate_with_fallback true gc ls pe env).result = GenResult.ok t ∧
      (generate_with_fallback true gc ls pe env).lastStatus =
        some { provider := "openai", reason := "ok",
               duration_ms := some 1500 }) ∧
    (∀ oc : Bool, primaryCalls (generate_with_fallback oc gc ls pe env).trace ≤ 3) := by
  refine ⟨?_, ?_, ?_⟩
  · intro t h0
    simp [generate_with_fallback, primaryLoop, h0, sleeps, sleepTotal]
  · intro e0 e1 t h0 h1 h2
    simp [generate_with_fallback, primaryLoop, h0, h1, h2, sleeps, sleepTotal]
  · intro oc
    cases oc with
    | false =>
      simp [generate_with_fallback, secondaryPhase_primaryCalls]
    | true =>
      cases h0 : pe 0 with
      | ok t0 => simp [generate_with_fallback, primaryLoop, h0, primaryCalls]
      | error e0 =>
        cases h1 : pe 1 with
        | ok t1 =>
          simp [generate_with_fallback, primaryLoop, h0, h1, primaryCalls]
        | error e1 =>
          cases h2 : pe 2 with
          | ok t2 =>
            simp [generate_with_fallback, primaryLoop, h0, h1, h2, primaryCalls]
          | error e2 =>
            simp [generate_with_fallback, primaryLoop, h0, h1, h2,
              primaryCalls_append, secondaryPhase_primaryCalls, primaryCalls]
            exact secondaryPhase_trace_no_primaryCall gc _ env

/-- C6 witness: two failures then a third-attempt success at a concrete
input — sleeps 500 ms and 1000 ms, result is the primary text. -/
theorem C6_primary_attempts_witness :
    sleeps (generate_with_fallback true true none
      (fun i => if i = 0 then Except.error "e0" else
                if i = 1 then Except.error "e1" else Except.ok "third")
      ⟨0, Except.ok "g"⟩).trace = [500, 1000] ∧
    (generate_with_fallback true true none
      (fun i => if i = 0 then Except.error "e0" else
                if i = 1 then Except.error "e1" else Except.ok "third")
      ⟨0, Except.ok "g"⟩).result = GenResult.ok "third" := by
  have h := (C6_primary_attempts true none
    (fun i => if i = 0 then Except.error "e0" else
              if i = 1 then Except.error "e1" else Except.ok "third")
    ⟨0, Except.ok "g"⟩).2.1 "e0" "e1" "third" rfl rfl rfl
  exact ⟨h.1, h.2.1⟩

/-- C7 counterexample: at ticks 0 and 1 the drawn lines are "Thinking ." and
"Thinking .." — the ellipsis grew but the phase label did not change, so the
phase does not advance on every tick. -/
theorem C7_counterexample :
    spinnerLine thinkingPhases 0 = "Thinking ." ∧
    spinnerLine thinkingPhases 1 = "Thinking .." ∧
    spinnerPhase thinkingPhases 1 = spinnerPhase thinkingPhases 0 := by decide

/-- C7 amended: each tick draws the phase label plus the ellipsis, the
ellipsis cycles through one/two/three dots modulo 3 each tick, and the phase
label advances only every third tick (every three 0.5 s intervals): it is
unchanged from tick `i` to `i + 1` unless `i % 3 = 2`, and differs between
tick `i` and tick `i + 3`. -/
theorem C7_phase_advances_every_three_ticks (i : Nat) :
    spinnerLine thinkingPhases i =
      spinnerPhase thinkingPhases i ++ " " ++ spinnerDots.getD (i % 3) "" ∧
    spinnerDots.getD ((i + 3) % 3) "" = spinnerDots.getD (i % 3) "" ∧
    (i % 3 ≠ 2 →
      spinnerPhase thinkingPhases (i + 1) = spinnerPhase thinkingPhases i) ∧
    spinnerPhase thinkingPhases (i + 3) ≠ spinnerPhase thinkingPhases i := by
  refine ⟨rfl, ?_, ?_, ?_⟩
  · have hmod : (i + 3) % 3 = i % 3 := by omega
    rw [hmod]
  · intro h
    have hdiv : (i + 1) / 3 = i / 3 := by omega
    simp [spinnerPhase, hdiv]
  · have hdiv : (i + 3) / 3 = i / 3 + 1 := by omega
    simp only [spinnerPhase, hdiv, thinkingPhases]
    rcases Nat.mod_two_eq_zero_or_one (i / 3) with h | h
    · have h2 : (i / 3 + 1) % 2 = 1 := by omega
      simp [h, h2]
    · have h2 : (i / 3 + 1) % 2 = 0 := by omega
      simp [h, h2]

/-- C7 witness: the amended statement at tick 0 — the phase at tick 1 equals
the phase at tick 0 since 0 % 3 is not 2. -/
theorem C7_phase_advances_witness :
    spinnerPhase thinkingPhases 1 = spinnerPhase thinkingPhases 0 :=
  (C7_phase_advances_every_three_ticks 0).2.2.1 (by decide)

/-- C8: on every execution of the orchestrator, the spinner events of the
trace are well nested — every started spinner handle is signalled to stop
exactly once before the call returns or raises, never two active handles at
once, and no handle is left active at the end of the trace. -/
theorem C8_spinner_stopped_exactly_once (oc gc : Bool) (ls : Option Status)
    (pe : Nat → Except String String) (env : SecondaryEnv) :
    spinnerBalanced (generate_with_fallback oc gc ls pe env).trace 0 = true := by
  cases oc with
  | false =>
    simpa [generate_with_fallback] using secondaryPhase_balanced gc ls env
  | true =>
    cases h0 : pe 0 with
    | ok t0 =>
      simp [generate_with_fallback, primaryLoop, h0, spinnerBalanced]
    | error e0 =>
      cases h1 : pe 1 with
      | ok t1 =>
        simp [generate_with_fallback, primaryLoop, h0, h1, spinnerBalanced]
      | error e1 =>
        cases h2 : pe 2 with
        | ok t2 =>
          simp [generate_with_fallback, primaryLoop, h0, h1, h2, spinnerBalanced]
        | error e2 =>
          simp only [generate_with_fallback, primaryLoop, h0, h1, h2]
          exact spinnerBalanced_append _ 0 _ rfl (secondaryPhase_balanced gc _ env)

/-- C10: if a call enters the secondary phase with a pre-existing non-empty
`last_status` and the primary was not attempted in this call, a secondary
success leaves the stale provider, reason and error fields untouched and
writes only `duration_ms`. -/
theorem C10_stale_status_only_duration_updated (s : Status)
    (pe : Nat → Except String String) (env : SecondaryEnv) (t : String)
    (hd : env.duration ≤ GEMINI_TIMEOUT_MS) (hr : env.result = Except.ok t) :
    (generate_with_fallback false true (some s) pe env).result =
      GenResult.ok t ∧
    (generate_with_fallback false true (some s) pe env).lastStatus =
      some { provider := s.provider, reason := s.reason, error := s.error,
             duration_ms := some env.duration } := by
  simp [generate_with_fallback, secondaryPhase, hd, hr]

/-- C10 witness: a stale status from a previous call (provider "openai",
reason "ok", duration 42 ms) survives a fresh secondary-only success except
for the rewritten duration. -/
theorem C10_stale_status_witness :
    (generate_with_fallback false true
        (some { provider := "openai", reason := "ok", duration_ms := some 42 })
        (fun _ => Except.error "unused") ⟨2000, Except.ok "gtext"⟩).lastStatus =
      some { provider := "openai", reason := "ok",
             duration_ms := some 2000 } :=
  (C10_stale_status_only_duration_updated
    { provider := "openai", reason := "ok", duration_ms := some 42 }
    (fun _ => Except.error "unused") ⟨2000, Except.ok "gtext"⟩ "gtext"
    (by decide) rfl).2
